import Mathlib

/-!
# resume-update-cron-go: the supervision core of `main.go`

The program is one Go file.  Every function in it is a straight-line
sequence of calls into the outside world (the logger, the operating system,
the ChromeDriver subprocess, the WebDriver session, the cron library).  The
embedding keeps the outside world as explicit inputs (`Env` for `main`,
`Driver` for one run of `updateResume`) and records every call as an
`Event`; a function of the program is a state transformer over the one
package-level variable `chromeCmd` that also yields the events it issued
and how control left it (`Res`).
-/

namespace ResumeCron

/-! ## Data model -/

/-- The package-level variable `chromeCmd *exec.Cmd` (main.go:18), as far as
the program observes it: `stopChromeDriver` tests `chromeCmd != nil` and
`chromeCmd.Process != nil`. -/
inductive Handle
  | nil
  | noProcess
  | live
  deriving DecidableEq

/-- The five page elements `updateResume` looks up, named after the Go
variables that hold them (main.go:132, 137, 142, 154, 162). -/
inductive Elem
  | usernameField
  | passwordField
  | loginBtn
  | updateBtn
  | saveBtn
  deriving DecidableEq

/-- Calls into the outside world, in the order they are issued. -/
inductive Event
  | log (msg : String)
  | exit (code : Nat)
  | panic
  | godotenvLoad
  | getenv (name : String)
  | execCommand
  | cmdStart
  | kill
  | signalNotify
  | goHandler
  | httpGet
  | sleep (ms : Nat)
  | cronNew
  | goUpdateResume (username password : String)
  | addFunc (spec username password : String)
  | cronStart
  | selectForever
  | newRemote
  | get
  | findElement (e : Elem)
  | sendKeys (e : Elem) (text : String)
  | click (e : Elem)
  | quit
  deriving DecidableEq

/-- How control leaves a piece of Go code: it completes (`ok`), the process
ends in `os.Exit`, a panic is unwinding the stack, or the goroutine blocks
forever in `select {}`. -/
inductive Res (α : Type)
  | ok (a : α)
  | exit (code : Nat)
  | panic
  | block
  deriving DecidableEq

/-- Result of running a piece of Go code from a given `chromeCmd`. -/
structure Out (α : Type) where
  trace : List Event
  handle : Handle
  res : Res α

/-- A piece of Go code: a transformer of `chromeCmd` that yields its events. -/
def Go (α : Type) : Type := Handle → Out α

/-- Sequencing `m; f`: the rest runs only when `m` completes. -/
def Go.bind {α β : Type} (m : Go α) (f : α → Go β) : Go β := fun h =>
  let o := m h
  match o.res with
  | .ok a => let o2 := f a o.handle
             ⟨o.trace ++ o2.trace, o2.handle, o2.res⟩
  | .exit c => ⟨o.trace, o.handle, .exit c⟩
  | .panic => ⟨o.trace, o.handle, .panic⟩
  | .block => ⟨o.trace, o.handle, .block⟩

instance : Monad Go where
  pure a := fun h => ⟨[], h, .ok a⟩
  bind := Go.bind

/-- One call into the outside world that returns `r`. -/
def call {α : Type} (e : Event) (r : α) : Go α := fun h => ⟨[e], h, .ok r⟩

/-- Assignment to the package-level `chromeCmd`. -/
def setHandle (h : Handle) : Go Unit := fun _ => ⟨[], h, .ok ()⟩

/-- Read of the package-level `chromeCmd`. -/
def getHandle : Go Handle := fun h => ⟨[], h, .ok h⟩

/-- The calls `logger.Println(msg)` and `logger.Printf(msg, ...)`. -/
def logPrintln (msg : String) : Go Unit := call (.log msg) ()

/-- The call `os.Exit(code)`: deferred calls are not run. -/
def osExit (code : Nat) : Go Unit := fun h => ⟨[.exit code], h, .exit code⟩

/-- The calls `logger.Fatal(msg)` and `logger.Fatalf(msg, ...)`: print, then
`os.Exit(1)`. -/
def logFatal (msg : String) : Go Unit := do
  logPrintln msg
  osExit 1

/-- The call `time.Sleep(ms * time.Millisecond)`. -/
def timeSleep (ms : Nat) : Go Unit := call (.sleep ms) ()

/-- A runtime panic starts unwinding. -/
def raisePanic {α : Type} : Go α := fun h => ⟨[.panic], h, .panic⟩

/-- The statement `defer d()` followed by the rest of the function, `body`:
`d` runs when `body` returns or panics, and does not run when the process
exits or the goroutine blocks forever.  A panic keeps unwinding after `d`
unless `d` itself ends the process. -/
def deferCall {α : Type} (d : Go Unit) (body : Go α) : Go α := fun h =>
  let o := body h
  match o.res with
  | .ok a =>
    let o2 := d o.handle
    match o2.res with
    | .ok _ => ⟨o.trace ++ o2.trace, o2.handle, .ok a⟩
    | .exit c => ⟨o.trace ++ o2.trace, o2.handle, .exit c⟩
    | .panic => ⟨o.trace ++ o2.trace, o2.handle, .panic⟩
    | .block => ⟨o.trace ++ o2.trace, o2.handle, .block⟩
  | .panic =>
    let o2 := d o.handle
    match o2.res with
    | .ok _ => ⟨o.trace ++ o2.trace, o2.handle, .panic⟩
    | .exit c => ⟨o.trace ++ o2.trace, o2.handle, .exit c⟩
    | .panic => ⟨o.trace ++ o2.trace, o2.handle, .panic⟩
    | .block => ⟨o.trace ++ o2.trace, o2.handle, .block⟩
  | .exit c => ⟨o.trace, o.handle, .exit c⟩
  | .block => ⟨o.trace, o.handle, .block⟩

/-- The deferred closure of main.go:21-25 followed by the rest of `main`:
`recover()` is non-nil exactly when `body` panicked, and then the closure
calls `logger.Fatalf`. -/
def deferRecover (body : Go Unit) : Go Unit := fun h =>
  let o := body h
  match o.res with
  | .panic =>
    let o2 := logFatal "❌ Application crashed: %v" o.handle
    ⟨o.trace ++ o2.trace, o2.handle, o2.res⟩
  | .ok a => ⟨o.trace, o.handle, .ok a⟩
  | .exit c => ⟨o.trace, o.handle, .exit c⟩
  | .block => ⟨o.trace, o.handle, .block⟩

/-! ## The outside world of `main` -/

/-- What `http.Get` returns: an error, or a response with its status code. -/
inductive HttpResult
  | error
  | response (statusCode : Nat)
  deriving DecidableEq

/-- The statements of `main` at which a runtime panic may be raised. -/
inductive Stage
  | godotenvLoad
  | getenv
  | startChromeDriver
  | setupGracefulShutdown
  | waitForChromeDriver
  | cronNew
  | goUpdateResume
  | addFunc9
  | addFunc14
  | addFunc18
  | cronStart
  deriving DecidableEq

/-- Everything `main` and its helpers read from the outside world:
whether `godotenv.Load` fails, the two environment variables, whether
`chromeCmd.Start` fails, the result of the i-th `http.Get` (counted from 0),
whether `Process.Kill` fails, and the statement of `main` (if any) whose
call panics. -/
structure Env where
  dotenvErr : Bool
  username : String
  password : String
  startErr : Bool
  probe : Nat → HttpResult
  killErr : Bool
  panicAt : Option Stage

/-- A statement of `main`, which panics when the outside world says so. -/
def stage {α : Type} (env : Env) (s : Stage) (body : Go α) : Go α :=
  if env.panicAt = some s then raisePanic else body

/-- The condition of main.go:80, `err == nil && resp.StatusCode == http.StatusOK`. -/
def HttpResult.ready : HttpResult → Bool
  | .error => false
  | .response statusCode => statusCode == 200

/-! ## Subprocess supervisor -/

/-- The call `chromeCmd.Start()`: on success `chromeCmd.Process` is set. -/
def cmdStart (env : Env) : Go Bool := fun h =>
  ⟨[.cmdStart], if env.startErr then h else .live, .ok env.startErr⟩

/-- Transcription of `startChromeDriver`, main.go:65-74. -/
def startChromeDriver (env : Env) : Go Unit := do
  logPrintln "🚀 Starting ChromeDriver..."
  call .execCommand ()
  setHandle .noProcess
  let err ← cmdStart env
  if err then
    logFatal "❌ Failed to start ChromeDriver: %v"

/-- The loop of main.go:78-85 with `fuel = 10 - i` iterations left. -/
def waitLoop (env : Env) : (fuel : Nat) → (i : Nat) → Go Bool
  | 0, _ => pure false
  | fuel + 1, i => do
    let resp ← call .httpGet (env.probe i)
    if resp.ready then
      logPrintln "✅ ChromeDriver is ready."
      pure true
    else
      timeSleep 500
      waitLoop env fuel (i + 1)

/-- Transcription of `waitForChromeDriver`, main.go:76-87. -/
def waitForChromeDriver (env : Env) : Go Unit := do
  logPrintln "⏳ Waiting for ChromeDriver to become ready..."
  let returned ← waitLoop env 10 0
  if returned then
    pure ()
  else
    logFatal "❌ ChromeDriver did not become ready in time."

/-- Transcription of `stopChromeDriver`, main.go:89-94.  The error of
`Process.Kill` is discarded and `chromeCmd` is not assigned. -/
def stopChromeDriver (env : Env) : Go Unit := do
  let chromeCmd ← getHandle
  if chromeCmd = .live then
    let _ ← call .kill env.killErr
    logPrintln "🛑 ChromeDriver stopped."

/-- The goroutine body of main.go:99-104 once a signal has arrived on `sig`. -/
def shutdownHandler (env : Env) : Go Unit := do
  logPrintln "⚠️ Received shutdown signal."
  stopChromeDriver env
  osExit 0

/-- Transcription of `setupGracefulShutdown`, main.go:96-105: `signal.Notify`
for `os.Interrupt` and `syscall.SIGTERM`, then the handler goroutine is
launched. -/
def setupGracefulShutdown : Go Unit := do
  call .signalNotify ()
  call .goHandler ()

/-! ## Lifecycle coordinator -/

/-- Transcription of `main`, main.go:20-63. -/
def main (env : Env) : Go Unit :=
  deferRecover (do
    logPrintln "🚀 Resume Auto-Updater starting up..."
    let err ← stage env .godotenvLoad (call .godotenvLoad env.dotenvErr)
    if err then
      logFatal "❌ Failed to load .env: %v"
    let (username, password) ← stage env .getenv (do
      let u ← call (.getenv "NAUKRI_USERNAME") env.username
      let p ← call (.getenv "NAUKRI_PASSWORD") env.password
      pure (u, p))
    if username = "" ∨ password = "" then
      logFatal "❌ NAUKRI_USERNAME or NAUKRI_PASSWORD missing in .env"
    stage env .startChromeDriver (startChromeDriver env)
    deferCall (stopChromeDriver env) (do
      stage env .setupGracefulShutdown setupGracefulShutdown
      stage env .waitForChromeDriver (waitForChromeDriver env)
      stage env .cronNew (call .cronNew ())
      logPrintln "📅 Starting scheduler..."
      stage env .goUpdateResume (call (.goUpdateResume username password) ())
      stage env .addFunc9 (call (.addFunc "0 9 * * *" username password) ())
      stage env .addFunc14 (call (.addFunc "0 14 * * *" username password) ())
      stage env .addFunc18 (call (.addFunc "0 18 * * *" username password) ())
      stage env .cronStart (call .cronStart ())
      logPrintln "✅ Scheduler started. Waiting for job triggers..."
      fun h => ⟨[.selectForever], h, .block⟩))

/-! ## Automation session runner -/

/-- The outcome of each WebDriver call of one run of `updateResume`:
`true` when the call returns a non-nil error. -/
structure Driver where
  newRemoteErr : Bool
  getErr : Bool
  findUsernameErr : Bool
  findPasswordErr : Bool
  findLoginErr : Bool
  sendUsernameErr : Bool
  sendPasswordErr : Bool
  clickLoginErr : Bool
  findUpdateErr : Bool
  clickUpdateErr : Bool
  findSaveErr : Bool
  clickSaveErr : Bool
  quitErr : Bool

/-- Transcription of `updateResume`, main.go:107-170.  The results of
`SendKeys`, `Click` and `Quit` are discarded, as in the source. -/
def updateResume (d : Driver) (username password : String) : Go Unit := do
  logPrintln "▶ Starting resume update process..."
  let err ← call .newRemote d.newRemoteErr
  if err then
    logPrintln "❌ Failed to start Selenium session: %v"
  else
    deferCall (do let _ ← call .quit d.quitErr) (do
      let err ← call .get d.getErr
      if err then
        logPrintln "❌ Failed to load Naukri profile page: %v"
      else
        let err ← call (.findElement .usernameField) d.findUsernameErr
        if err then
          logPrintln "❌ Username field not found: %v"
        else
          let err ← call (.findElement .passwordField) d.findPasswordErr
          if err then
            logPrintln "❌ Password field not found: %v"
          else
            let err ← call (.findElement .loginBtn) d.findLoginErr
            if err then
              logPrintln "❌ Login button not found: %v"
            else
              let _ ← call (.sendKeys .usernameField username) d.sendUsernameErr
              let _ ← call (.sendKeys .passwordField password) d.sendPasswordErr
              let _ ← call (.click .loginBtn) d.clickLoginErr
              timeSleep 5000
              let err ← call (.findElement .updateBtn) d.findUpdateErr
              if err then
                logPrintln "❌ Resume headline edit not found: %v"
              else
                let _ ← call (.click .updateBtn) d.clickUpdateErr
                timeSleep 2000
                let err ← call (.findElement .saveBtn) d.findSaveErr
                if err then
                  logPrintln "❌ Save button not found: %v"
                else
                  let _ ← call (.click .saveBtn) d.clickSaveErr
                  logPrintln "✅ Resume updated successfully.")

/-! ## Vocabulary for the statements about `updateResume` -/

/-- The twelve WebDriver calls of one run of `updateResume`, in source order. -/
inductive Step
  | openSession
  | navigate
  | findUsername
  | findPassword
  | findLogin
  | sendUsername
  | sendPassword
  | clickLogin
  | findUpdate
  | clickUpdate
  | findSave
  | clickSave
  deriving DecidableEq

/-- Position of a step in the source (main.go:117, 125, 132, 137, 142, 147,
148, 149, 154, 159, 162, 167). -/
def Step.index : Step → Nat
  | .openSession => 0
  | .navigate => 1
  | .findUsername => 2
  | .findPassword => 3
  | .findLogin => 4
  | .sendUsername => 5
  | .sendPassword => 6
  | .clickLogin => 7
  | .findUpdate => 8
  | .clickUpdate => 9
  | .findSave => 10
  | .clickSave => 11

/-- The event a step issues. -/
def Step.event (username password : String) : Step → Event
  | .openSession => .newRemote
  | .navigate => .get
  | .findUsername => .findElement .usernameField
  | .findPassword => .findElement .passwordField
  | .findLogin => .findElement .loginBtn
  | .sendUsername => .sendKeys .usernameField username
  | .sendPassword => .sendKeys .passwordField password
  | .clickLogin => .click .loginBtn
  | .findUpdate => .findElement .updateBtn
  | .clickUpdate => .click .updateBtn
  | .findSave => .findElement .saveBtn
  | .clickSave => .click .saveBtn

/-- Whether the call of a step returns an error in the run `d`. -/
def Step.err (d : Driver) : Step → Bool
  | .openSession => d.newRemoteErr
  | .navigate => d.getErr
  | .findUsername => d.findUsernameErr
  | .findPassword => d.findPasswordErr
  | .findLogin => d.findLoginErr
  | .sendUsername => d.sendUsernameErr
  | .sendPassword => d.sendPasswordErr
  | .clickLogin => d.clickLoginErr
  | .findUpdate => d.findUpdateErr
  | .clickUpdate => d.clickUpdateErr
  | .findSave => d.findSaveErr
  | .clickSave => d.clickSaveErr

/-- The message the source logs when it sees the error of a step; `none` for
the steps whose returned error the source never inspects (main.go:147-149,
159, 167). -/
def Step.failureLog : Step → Option String
  | .openSession => some "❌ Failed to start Selenium session: %v"
  | .navigate => some "❌ Failed to load Naukri profile page: %v"
  | .findUsername => some "❌ Username field not found: %v"
  | .findPassword => some "❌ Password field not found: %v"
  | .findLogin => some "❌ Login button not found: %v"
  | .findUpdate => some "❌ Resume headline edit not found: %v"
  | .findSave => some "❌ Save button not found: %v"
  | _ => none

/-- Events that send input to the page: `SendKeys` and `Click`. -/
def Event.isInput : Event → Bool
  | .sendKeys _ _ => true
  | .click _ => true
  | _ => false

/-- A run in which every call succeeds. -/
def Driver.allOk : Driver :=
  ⟨false, false, false, false, false, false, false, false, false, false, false, false, false⟩

/-- The terminal success message of main.go:169. -/
def successLog : Event := .log "✅ Resume updated successfully."

/-- The trace of a run in which no inspected call fails. -/
def fullRun (username password : String) : List Event :=
  [.log "▶ Starting resume update process...", .newRemote, .get,
   .findElement .usernameField, .findElement .passwordField, .findElement .loginBtn,
   .sendKeys .usernameField username, .sendKeys .passwordField password, .click .loginBtn,
   .sleep 5000, .findElement .updateBtn, .click .updateBtn, .sleep 2000,
   .findElement .saveBtn, .click .saveBtn, successLog, .quit]

/-- A run in which only `usernameField.SendKeys` returns an error. -/
def Driver.sendKeysFails : Driver := { Driver.allOk with sendUsernameErr := true }

/-- A run in which only the lookup of the password field returns an error. -/
def Driver.passwordLookupFails : Driver := { Driver.allOk with findPasswordErr := true }

/-! ## Vocabulary for the statements about readiness polling and `main` -/

/-- The events of `k` unsuccessful probes: each `http.Get` followed by a
500 ms sleep. -/
def failedProbes (k : Nat) : List Event :=
  (List.replicate k [Event.httpGet, Event.sleep 500]).flatten

/-- The first of the ten probes (counted from 0) that returns without error
and with status 200, if any. -/
def firstReady (env : Env) : Option Nat :=
  (List.range 10).find? (fun i => (env.probe i).ready)

/-- Total time slept in a trace, in milliseconds. -/
def totalSleep : List Event → Nat
  | [] => 0
  | .sleep ms :: rest => ms + totalSleep rest
  | _ :: rest => totalSleep rest

/-- What the recovery boundary of `main` adds when a panic is raised before
`defer stopChromeDriver()` is reached. -/
def crashTail : List Event :=
  [.panic, .log "❌ Application crashed: %v", .exit 1]

/-- What the deferred calls of `main` add when a panic is raised after
`defer stopChromeDriver()` and the subprocess is live: the kill and its log
line, then the recovery boundary. -/
def crashStopTail : List Event :=
  [.panic, .kill, .log "🛑 ChromeDriver stopped.", .log "❌ Application crashed: %v", .exit 1]

/-- The events of `main` up to and including the credential check. -/
def envTrace : List Event :=
  [.log "🚀 Resume Auto-Updater starting up...", .godotenvLoad,
   .getenv "NAUKRI_USERNAME", .getenv "NAUKRI_PASSWORD"]

/-- The events of `main` up to and including a successful subprocess start. -/
def startTrace : List Event :=
  envTrace ++ [.log "🚀 Starting ChromeDriver...", .execCommand, .cmdStart]

/-- The events of `main` up to and including the installation of the signal
handler. -/
def shutdownTrace : List Event :=
  startTrace ++ [.signalNotify, .goHandler]

/-- The events of `main` up to and including readiness, reached at probe `k`
(counted from 0). -/
def readyTrace (k : Nat) : List Event :=
  shutdownTrace ++ .log "⏳ Waiting for ChromeDriver to become ready..." ::
    (failedProbes k ++ [.httpGet, .log "✅ ChromeDriver is ready."])

/-- The events of `main` after readiness: scheduler creation, the immediate
run, the three registrations, the scheduler start and the final block. -/
def schedTrace (username password : String) : List Event :=
  [.cronNew, .log "📅 Starting scheduler...", .goUpdateResume username password,
   .addFunc "0 9 * * *" username password, .addFunc "0 14 * * *" username password,
   .addFunc "0 18 * * *" username password, .cronStart,
   .log "✅ Scheduler started. Waiting for job triggers...", .selectForever]

/-- Events of the scheduling phase: scheduler creation, trigger registration,
scheduler start and the launch of the immediate run. -/
def Event.isSched : Event → Bool
  | .cronNew => true
  | .addFunc _ _ _ => true
  | .cronStart => true
  | .goUpdateResume _ _ => true
  | _ => false

/-- An outside world in which everything works; the first probe answers 204,
the second fails and the third answers 200. -/
def Env.healthy : Env :=
  ⟨false, "user", "secret", false,
    fun i => if i = 0 then .response 204 else if i = 2 then .response 200 else .error,
    false, none⟩

/-- An outside world in which ChromeDriver starts but never answers 200: the
first probe answers 201, the fourth 503 and every other probe fails. -/
def Env.neverReady : Env :=
  { Env.healthy with
    probe := fun i => if i = 0 then .response 201 else if i = 3 then .response 503 else .error }

/-- An outside world with credentials and no probe answering 200, in which
`chromeCmd.Start` fails. -/
def Env.startFails : Env :=
  { Env.neverReady with startErr := true }

/-- An outside world in which everything works until `cron.New` panics. -/
def Env.panicAtCronNew : Env :=
  { Env.healthy with panicAt := some .cronNew }

/-! ## One run of `updateResume` -/

/-- Closed form of a run: the trace depends only on the first inspected call
that fails; `chromeCmd` is untouched and control returns to the caller. -/
theorem updateResume_out (d : Driver) (username password : String) (h : Handle) :
    updateResume d username password h =
      ⟨if d.newRemoteErr then
          (fullRun username password).take 2 ++ [.log "❌ Failed to start Selenium session: %v"]
        else if d.getErr then
          (fullRun username password).take 3 ++
            [.log "❌ Failed to load Naukri profile page: %v", .quit]
        else if d.findUsernameErr then
          (fullRun username password).take 4 ++ [.log "❌ Username field not found: %v", .quit]
        else if d.findPasswordErr then
          (fullRun username password).take 5 ++ [.log "❌ Password field not found: %v", .quit]
        else if d.findLoginErr then
          (fullRun username password).take 6 ++ [.log "❌ Login button not found: %v", .quit]
        else if d.findUpdateErr then
          (fullRun username password).take 11 ++
            [.log "❌ Resume headline edit not found: %v", .quit]
        else if d.findSaveErr then
          (fullRun username password).take 14 ++ [.log "❌ Save button not found: %v", .quit]
        else fullRun username password,
       h, .ok ()⟩ := by
  rcases d with ⟨a, b, c, e, f, g1, g2, g3, i, g4, j, g5, g6⟩
  cases a
  swap
  · simp [updateResume, bind, Go.bind, call, logPrintln, fullRun]
  cases b
  swap
  · simp [updateResume, bind, Go.bind, call, logPrintln, deferCall, pure, fullRun]
  cases c
  swap
  · simp [updateResume, bind, Go.bind, call, logPrintln, deferCall, pure, fullRun]
  cases e
  swap
  · simp [updateResume, bind, Go.bind, call, logPrintln, deferCall, pure, fullRun]
  cases f
  swap
  · simp [updateResume, bind, Go.bind, call, logPrintln, deferCall, pure, fullRun]
  cases i
  swap
  · simp [updateResume, bind, Go.bind, call, logPrintln, deferCall, timeSleep, pure, fullRun]
  cases j <;>
    simp [updateResume, bind, Go.bind, call, logPrintln, deferCall, timeSleep, pure, fullRun,
      successLog]

/-- C1: if opening the session succeeds, `quit` occurs exactly once in the
trace of the run and is its last event (the session is closed once, after
every other command of the run, whichever step the run stops at); if opening
the session fails no `quit` is issued. -/
theorem updateResume_quit_exactly_once (d : Driver) (username password : String) (h : Handle) :
    (d.newRemoteErr = false →
      (updateResume d username password h).trace.count .quit = 1 ∧
      (updateResume d username password h).trace.getLast? = some .quit ∧
      Event.quit ∉ (updateResume d username password h).trace.dropLast ∧
      Event.newRemote ∈ (updateResume d username password h).trace.dropLast) ∧
    (d.newRemoteErr = true →
      (updateResume d username password h).trace.count .quit = 0 ∧
      Event.quit ∉ (updateResume d username password h).trace) := by
  rw [updateResume_out]
  split_ifs <;> simp_all [fullRun, successLog]

/-- C1, at a run whose password-field lookup fails. -/
theorem updateResume_quit_exactly_once_witness :
    (updateResume Driver.passwordLookupFails "user" "secret" .live).trace.count .quit = 1 ∧
    (updateResume Driver.passwordLookupFails "user" "secret" .live).trace.getLast? =
      some .quit ∧
    Event.quit ∉ (updateResume Driver.passwordLookupFails "user" "secret" .live).trace.dropLast ∧
    Event.newRemote ∈
      (updateResume Driver.passwordLookupFails "user" "secret" .live).trace.dropLast :=
  (updateResume_quit_exactly_once Driver.passwordLookupFails "user" "secret" .live).1 rfl

/-- C6 as stated fails: when `usernameField.SendKeys` returns an error and every
other call succeeds, the step was executed, the run is the full successful run,
every later step is executed, the terminal success message is logged and no other
message is. -/
theorem updateResume_sendKeys_error_ignored :
    Step.err Driver.sendKeysFails .sendUsername = true ∧
    Step.event "user" "secret" .sendUsername ∈
      (updateResume Driver.sendKeysFails "user" "secret" .live).trace ∧
    Step.event "user" "secret" .sendPassword ∈
      (updateResume Driver.sendKeysFails "user" "secret" .live).trace ∧
    Step.event "user" "secret" .clickSave ∈
      (updateResume Driver.sendKeysFails "user" "secret" .live).trace ∧
    Event.log "✅ Resume updated successfully." ∈
      (updateResume Driver.sendKeysFails "user" "secret" .live).trace ∧
    (updateResume Driver.sendKeysFails "user" "secret" .live).trace =
      (updateResume Driver.allOk "user" "secret" .live).trace := by
  decide

/-- C6, amended: every run returns to its caller and leaves `chromeCmd` alone;
if an executed step whose error the source inspects (open session, navigate,
the five lookups) returns an error, its failure message is logged, no later
step is executed and the success message is not logged; the errors of the
`SendKeys` and `Click` steps are discarded, so two runs that agree on the
inspected steps are the same run. -/
theorem updateResume_inspected_failure_aborts (d : Driver) (username password : String)
    (h : Handle) :
    (updateResume d username password h).res = .ok () ∧
    (updateResume d username password h).handle = h ∧
    (∀ (s : Step) (msg : String), s.failureLog = some msg → s.err d = true →
      s.event username password ∈ (updateResume d username password h).trace →
        Event.log msg ∈ (updateResume d username password h).trace ∧
        (∀ s2 : Step, s.index < s2.index →
          s2.event username password ∉ (updateResume d username password h).trace) ∧
        successLog ∉ (updateResume d username password h).trace) ∧
    (∀ d2 : Driver, (∀ s : Step, s.failureLog.isSome = true → s.err d2 = s.err d) →
      updateResume d2 username password h = updateResume d username password h) := by
  refine ⟨by rw [updateResume_out], by rw [updateResume_out], ?_, ?_⟩
  · intro s msg hmsg herr hrun
    rw [updateResume_out] at hrun ⊢
    cases s <;> simp [Step.failureLog] at hmsg <;> subst hmsg <;> simp only [Step.err] at herr <;>
      split_ifs at hrun ⊢ <;> simp_all [fullRun, successLog, Step.event] <;>
      (intro s2 hlt; cases s2 <;> simp_all [Step.index, Step.event])
  · intro d2 hd
    have h0 := hd .openSession rfl
    have h1 := hd .navigate rfl
    have h2 := hd .findUsername rfl
    have h3 := hd .findPassword rfl
    have h4 := hd .findLogin rfl
    have h5 := hd .findUpdate rfl
    have h6 := hd .findSave rfl
    simp only [Step.err] at h0 h1 h2 h3 h4 h5 h6
    rw [updateResume_out, updateResume_out, h0, h1, h2, h3, h4, h5, h6]

/-- C6 amended, at a run whose password-field lookup fails. -/
theorem updateResume_inspected_failure_aborts_witness :
    Event.log "❌ Password field not found: %v" ∈
      (updateResume Driver.passwordLookupFails "user" "secret" .live).trace ∧
    (∀ s2 : Step, Step.findPassword.index < s2.index →
      s2.event "user" "secret" ∉
        (updateResume Driver.passwordLookupFails "user" "secret" .live).trace) ∧
    successLog ∉ (updateResume Driver.passwordLookupFails "user" "secret" .live).trace :=
  (updateResume_inspected_failure_aborts Driver.passwordLookupFails "user" "secret" .live).2.2.1
    .findPassword _ rfl rfl (by decide)

/-- C7: if any of the three credential lookups fails, the run issues no
`SendKeys` and no `Click`; after the failed lookup the run only logs and
closes the session; and a run issues input only when all three lookups
succeeded, its first nine events then being the three lookups followed by the
principal sent to the username field, the credential sent to the password
field and the submit click, with no further `SendKeys` afterwards. -/
theorem updateResume_no_partial_submission (d : Driver) (username password : String)
    (h : Handle) :
    ((d.findUsernameErr = true ∨ d.findPasswordErr = true ∨ d.findLoginErr = true) →
      ∀ e ∈ (updateResume d username password h).trace, e.isInput = false) ∧
    (d.newRemoteErr = false → d.getErr = false → d.findUsernameErr = true →
      (updateResume d username password h).trace =
        [.log "▶ Starting resume update process...", .newRemote, .get,
         .findElement .usernameField, .log "❌ Username field not found: %v", .quit]) ∧
    (d.newRemoteErr = false → d.getErr = false → d.findUsernameErr = false →
      d.findPasswordErr = true →
      (updateResume d username password h).trace =
        [.log "▶ Starting resume update process...", .newRemote, .get,
         .findElement .usernameField, .findElement .passwordField,
         .log "❌ Password field not found: %v", .quit]) ∧
    (d.newRemoteErr = false → d.getErr = false → d.findUsernameErr = false →
      d.findPasswordErr = false → d.findLoginErr = true →
      (updateResume d username password h).trace =
        [.log "▶ Starting resume update process...", .newRemote, .get,
         .findElement .usernameField, .findElement .passwordField, .findElement .loginBtn,
         .log "❌ Login button not found: %v", .quit]) ∧
    (∀ e ∈ (updateResume d username password h).trace, e.isInput = true →
      d.findUsernameErr = false ∧ d.findPasswordErr = false ∧ d.findLoginErr = false ∧
      (updateResume d username password h).trace.take 9 =
        [.log "▶ Starting resume update process...", .newRemote, .get,
         .findElement .usernameField, .findElement .passwordField, .findElement .loginBtn,
         .sendKeys .usernameField username, .sendKeys .passwordField password,
         .click .loginBtn] ∧
      ∀ e2 ∈ (updateResume d username password h).trace.drop 9,
        ∀ (el : Elem) (text : String), e2 ≠ .sendKeys el text) := by
  rw [updateResume_out]
  rcases d with ⟨a, b, c, e, f, g1, g2, g3, i, g4, j, g5, g6⟩
  cases a
  swap
  · simp [fullRun, Event.isInput]
  cases b
  swap
  · simp [fullRun, Event.isInput]
  cases c
  swap
  · simp [fullRun, Event.isInput]
  cases e
  swap
  · simp [fullRun, Event.isInput]
  cases f
  swap
  · simp [fullRun, Event.isInput]
  cases i
  swap
  · simp [fullRun, Event.isInput]
  cases j <;> simp [fullRun, successLog, Event.isInput]

/-- C7, at a run whose password-field lookup fails. -/
theorem updateResume_no_partial_submission_witness :
    (∀ e ∈ (updateResume Driver.passwordLookupFails "user" "secret" .live).trace,
      e.isInput = false) ∧
    (updateResume Driver.passwordLookupFails "user" "secret" .live).trace =
      [.log "▶ Starting resume update process...", .newRemote, .get,
       .findElement .usernameField, .findElement .passwordField,
       .log "❌ Password field not found: %v", .quit] :=
  ⟨(updateResume_no_partial_submission Driver.passwordLookupFails "user" "secret" .live).1
    (Or.inr (Or.inl rfl)),
   (updateResume_no_partial_submission Driver.passwordLookupFails "user" "secret"
    .live).2.2.1 rfl rfl rfl rfl⟩

/-! ## Readiness polling -/

theorem count_httpGet_failedProbes (k : Nat) : (failedProbes k).count .httpGet = k := by
  induction k with
  | zero => rfl
  | succ n ih =>
    simp only [failedProbes, List.replicate_succ, List.flatten_cons] at ih ⊢
    simp [ih]

theorem count_sleep_failedProbes (k : Nat) : (failedProbes k).count (.sleep 500) = k := by
  induction k with
  | zero => rfl
  | succ n ih =>
    simp only [failedProbes, List.replicate_succ, List.flatten_cons] at ih ⊢
    simp [ih]

theorem totalSleep_append (xs ys : List Event) :
    totalSleep (xs ++ ys) = totalSleep xs + totalSleep ys := by
  induction xs with
  | nil => simp [totalSleep]
  | cons x xs ih => cases x <;> simp [totalSleep, ih, Nat.add_assoc]

theorem totalSleep_failedProbes (k : Nat) : totalSleep (failedProbes k) = 500 * k := by
  induction k with
  | zero => rfl
  | succ n ih =>
    simp only [failedProbes, List.replicate_succ, List.flatten_cons] at ih ⊢
    simp [totalSleep, ih]
    omega

/-- The loop, when none of the next `fuel` probes is ready. -/
theorem waitLoop_exhausted (env : Env) (fuel i : Nat) (h : Handle)
    (hno : ∀ j, j < fuel → (env.probe (i + j)).ready = false) :
    waitLoop env fuel i h = ⟨failedProbes fuel, h, .ok false⟩ := by
  induction fuel generalizing i with
  | zero => rfl
  | succ n ih =>
    have h0 : (env.probe i).ready = false := by simpa using hno 0 (Nat.succ_pos n)
    have hrest : ∀ j, j < n → (env.probe (i + 1 + j)).ready = false := by
      intro j hj
      have := hno (j + 1) (Nat.succ_lt_succ hj)
      simpa [Nat.add_assoc, Nat.add_comm 1 j] using this
    have := ih (i + 1) hrest
    simp [waitLoop, bind, Go.bind, call, timeSleep, h0, this, failedProbes,
      List.replicate_succ]

/-- The loop, when the first ready probe among the next `fuel` is number `k`. -/
theorem waitLoop_ready (env : Env) (fuel i k : Nat) (h : Handle) (hk : k < fuel)
    (hno : ∀ j, j < k → (env.probe (i + j)).ready = false)
    (hyes : (env.probe (i + k)).ready = true) :
    waitLoop env fuel i h =
      ⟨failedProbes k ++ [.httpGet, .log "✅ ChromeDriver is ready."], h, .ok true⟩ := by
  induction fuel generalizing i k with
  | zero => omega
  | succ n ih =>
    cases k with
    | zero =>
      have h0 : (env.probe i).ready = true := by simpa using hyes
      simp [waitLoop, bind, Go.bind, call, logPrintln, pure, h0, failedProbes]
    | succ m =>
      have h0 : (env.probe i).ready = false := by simpa using hno 0 (Nat.succ_pos m)
      have hrest : ∀ j, j < m → (env.probe (i + 1 + j)).ready = false := by
        intro j hj
        have := hno (j + 1) (Nat.succ_lt_succ hj)
        simpa [Nat.add_assoc, Nat.add_comm 1 j] using this
      have hyes2 : (env.probe (i + 1 + m)).ready = true := by
        simpa [Nat.add_assoc, Nat.add_comm 1 m] using hyes
      have := ih (i + 1) m (Nat.lt_of_succ_lt_succ hk) hrest hyes2
      simp [waitLoop, bind, Go.bind, call, timeSleep, h0, this, failedProbes,
        List.replicate_succ]

/-- The readiness test accepts exactly an error-free response with status 200. -/
theorem ready_iff (r : HttpResult) : r.ready = true ↔ r = .response 200 := by
  cases r with
  | error => simp [HttpResult.ready]
  | response statusCode => simp [HttpResult.ready]

theorem not_ready_iff (r : HttpResult) : r.ready = false ↔ r ≠ .response 200 := by
  rw [Ne, ← ready_iff]
  cases r.ready <;> simp

theorem firstReady_none (env : Env) (hfr : firstReady env = none) :
    ∀ j, j < 10 → (env.probe j).ready = false := by
  intro j hj
  have := List.find?_eq_none.mp hfr j (List.mem_range.mpr hj)
  simpa using this

theorem firstReady_some (env : Env) (k : Nat) (hfr : firstReady env = some k) :
    k < 10 ∧ (env.probe k).ready = true ∧ ∀ j, j < k → (env.probe j).ready = false := by
  obtain ⟨h1, h2, h3⟩ := List.find?_range_eq_some.mp hfr
  exact ⟨List.mem_range.mp h2, h1, fun j hj => by simpa using h3 j hj⟩

theorem firstReady_of_first (env : Env) (k : Nat) (hk : k < 10)
    (hno : ∀ j, j < k → (env.probe j).ready = false) (hyes : (env.probe k).ready = true) :
    firstReady env = some k :=
  List.find?_range_eq_some.mpr ⟨hyes, List.mem_range.mpr hk, fun j hj => by simp [hno j hj]⟩

theorem firstReady_of_none (env : Env) (hno : ∀ j, j < 10 → (env.probe j).ready = false) :
    firstReady env = none :=
  List.find?_range_eq_none.mpr (fun j hj => by simp [hno j hj])

/-- Closed form of `waitForChromeDriver`. -/
theorem waitForChromeDriver_out (env : Env) (h : Handle) :
    waitForChromeDriver env h =
      match firstReady env with
      | some k =>
        ⟨.log "⏳ Waiting for ChromeDriver to become ready..." ::
          (failedProbes k ++ [.httpGet, .log "✅ ChromeDriver is ready."]), h, .ok ()⟩
      | none =>
        ⟨.log "⏳ Waiting for ChromeDriver to become ready..." ::
          (failedProbes 10 ++ [.log "❌ ChromeDriver did not become ready in time.", .exit 1]),
          h, .exit 1⟩ := by
  cases hfr : firstReady env with
  | none =>
    have hl := waitLoop_exhausted env 10 0 h (by simpa using firstReady_none env hfr)
    simp [waitForChromeDriver, bind, Go.bind, call, logPrintln, logFatal, osExit, hl]
  | some k =>
    obtain ⟨hk, hyes, hno⟩ := firstReady_some env k hfr
    have hl := waitLoop_ready env 10 0 k h hk (by simpa using hno) (by simpa using hyes)
    simp [waitForChromeDriver, bind, Go.bind, call, logPrintln, pure, hl]

/-- Closed form of `stopChromeDriver`. -/
theorem stopChromeDriver_out (env : Env) (h : Handle) :
    stopChromeDriver env h =
      ⟨if h = .live then [.kill, .log "🛑 ChromeDriver stopped."] else [], h, .ok ()⟩ := by
  cases h <;> simp [stopChromeDriver, bind, Go.bind, call, logPrintln, getHandle, pure]

/-- C2: polling issues at most 10 probes; if the first probe that returns
without error and with status 200 is number `k + 1` (index `k < 10`, every
earlier probe being an error or a response with another status) the trace is `k`
probe-then-sleep pairs, one more probe and the ready message, so exactly `k + 1`
probes and `k` sleeps of 500 ms, and the function returns; if none of the 10
probes is an error-free 200 the trace is 10 probe-then-sleep pairs followed by
the fatal message and `os.Exit(1)`. -/
theorem waitForChromeDriver_probes (env : Env) (h : Handle) :
    (waitForChromeDriver env h).trace.count .httpGet ≤ 10 ∧
    (∀ k, k < 10 → (∀ j, j < k → env.probe j ≠ .response 200) →
      env.probe k = .response 200 →
        waitForChromeDriver env h =
          ⟨.log "⏳ Waiting for ChromeDriver to become ready..." ::
            (failedProbes k ++ [.httpGet, .log "✅ ChromeDriver is ready."]), h, .ok ()⟩ ∧
        (waitForChromeDriver env h).trace.count .httpGet = k + 1 ∧
        (waitForChromeDriver env h).trace.count (.sleep 500) = k ∧
        totalSleep (waitForChromeDriver env h).trace = 500 * k) ∧
    ((∀ j, j < 10 → env.probe j ≠ .response 200) →
        waitForChromeDriver env h =
          ⟨.log "⏳ Waiting for ChromeDriver to become ready..." ::
            (failedProbes 10 ++
              [.log "❌ ChromeDriver did not become ready in time.", .exit 1]), h, .exit 1⟩ ∧
        (waitForChromeDriver env h).trace.count .httpGet = 10 ∧
        (waitForChromeDriver env h).trace.count (.sleep 500) = 10 ∧
        totalSleep (waitForChromeDriver env h).trace = 5000) := by
  refine ⟨?_, ?_, ?_⟩
  · rw [waitForChromeDriver_out]
    cases hfr : firstReady env with
    | none => simp [count_httpGet_failedProbes]
    | some k =>
      have := (firstReady_some env k hfr).1
      simp [count_httpGet_failedProbes]
      omega
  · intro k hk hno hyes
    rw [waitForChromeDriver_out, firstReady_of_first env k hk
      (fun j hj => (not_ready_iff _).mpr (hno j hj)) ((ready_iff _).mpr hyes)]
    simp [count_httpGet_failedProbes, count_sleep_failedProbes, totalSleep,
      totalSleep_append, totalSleep_failedProbes]
  · intro hno
    rw [waitForChromeDriver_out, firstReady_of_none env
      (fun j hj => (not_ready_iff _).mpr (hno j hj))]
    simp [count_httpGet_failedProbes, count_sleep_failedProbes, totalSleep,
      totalSleep_append, totalSleep_failedProbes]

/-- C2, at an outside world whose first probe answers 204, whose second probe
fails and whose third probe is the first to answer 200. -/
theorem waitForChromeDriver_probes_witness :
    Env.healthy.probe 0 = .response 204 ∧
    Env.healthy.probe 1 = .error ∧
    waitForChromeDriver Env.healthy .live =
      ⟨[.log "⏳ Waiting for ChromeDriver to become ready...", .httpGet, .sleep 500,
        .httpGet, .sleep 500, .httpGet, .log "✅ ChromeDriver is ready."], .live, .ok ()⟩ ∧
    (waitForChromeDriver Env.healthy .live).trace.count .httpGet = 2 + 1 ∧
    (waitForChromeDriver Env.healthy .live).trace.count (.sleep 500) = 2 ∧
    totalSleep (waitForChromeDriver Env.healthy .live).trace = 500 * 2 :=
  ⟨rfl, rfl,
   (waitForChromeDriver_probes Env.healthy .live).2.1 2 (by decide)
    (by intro j hj; interval_cases j <;> decide) rfl⟩

/-! ## Stopping the subprocess -/

/-- C4 as stated fails: after a stop with a live handle `chromeCmd` is still
live, and a second, immediately following stop issues a second kill and logs
the line again. -/
theorem stopChromeDriver_twice_kills_twice :
    (stopChromeDriver Env.healthy .live).handle = .live ∧
    ((stopChromeDriver Env.healthy >>= fun _ => stopChromeDriver Env.healthy) .live).trace =
      [.kill, .log "🛑 ChromeDriver stopped.", .kill, .log "🛑 ChromeDriver stopped."] := by
  decide

/-- C4, amended: a stop with a live handle issues exactly one kill, logs one
line, returns and leaves `chromeCmd` as it was (still live); so a second,
immediately following stop does the same again. -/
theorem stopChromeDriver_live (env env2 : Env) :
    stopChromeDriver env .live =
      ⟨[.kill, .log "🛑 ChromeDriver stopped."], .live, .ok ()⟩ ∧
    (stopChromeDriver env .live).trace.count .kill = 1 ∧
    (stopChromeDriver env >>= fun _ => stopChromeDriver env2) .live =
      ⟨[.kill, .log "🛑 ChromeDriver stopped.", .kill, .log "🛑 ChromeDriver stopped."],
        .live, .ok ()⟩ := by
  simp [bind, Go.bind, stopChromeDriver_out]

/-- C5: whatever `chromeCmd` is and whatever `Process.Kill` returns, a stop
returns normally and leaves `chromeCmd` unchanged; when there is no live handle
(`chromeCmd` nil, or its `Process` nil) it issues no event at all; and two stops
in succession return normally. -/
theorem stopChromeDriver_never_fails (env env2 : Env) (h : Handle) :
    (stopChromeDriver env h).res = .ok () ∧
    (stopChromeDriver env h).handle = h ∧
    (stopChromeDriver env .nil).trace = [] ∧
    (stopChromeDriver env .noProcess).trace = [] ∧
    ((stopChromeDriver env >>= fun _ => stopChromeDriver env2) h).res = .ok () ∧
    ((stopChromeDriver env >>= fun _ => stopChromeDriver env2) h).handle = h := by
  simp [bind, Go.bind, stopChromeDriver_out]

/-! ## Startup -/

/-- Closed form of `main`: the outcome is decided by the first statement that
panics or exits. -/
theorem main_out (env : Env) (h : Handle) :
    main env h =
      if env.panicAt = some .godotenvLoad then
        ⟨[.log "🚀 Resume Auto-Updater starting up..."] ++ crashTail, h, .exit 1⟩
      else if env.dotenvErr then
        ⟨[.log "🚀 Resume Auto-Updater starting up...", .godotenvLoad,
          .log "❌ Failed to load .env: %v", .exit 1], h, .exit 1⟩
      else if env.panicAt = some .getenv then
        ⟨[.log "🚀 Resume Auto-Updater starting up...", .godotenvLoad] ++ crashTail, h, .exit 1⟩
      else if env.username = "" ∨ env.password = "" then
        ⟨envTrace ++ [.log "❌ NAUKRI_USERNAME or NAUKRI_PASSWORD missing in .env", .exit 1],
          h, .exit 1⟩
      else if env.panicAt = some .startChromeDriver then
        ⟨envTrace ++ crashTail, h, .exit 1⟩
      else if env.startErr then
        ⟨startTrace ++ [.log "❌ Failed to start ChromeDriver: %v", .exit 1], .noProcess, .exit 1⟩
      else if env.panicAt = some .setupGracefulShutdown then
        ⟨startTrace ++ crashStopTail, .live, .exit 1⟩
      else if env.panicAt = some .waitForChromeDriver then
        ⟨shutdownTrace ++ crashStopTail, .live, .exit 1⟩
      else
        match firstReady env with
        | none =>
          ⟨shutdownTrace ++ .log "⏳ Waiting for ChromeDriver to become ready..." ::
            (failedProbes 10 ++
              [.log "❌ ChromeDriver did not become ready in time.", .exit 1]), .live, .exit 1⟩
        | some k =>
          if env.panicAt = some .cronNew then
            ⟨readyTrace k ++ crashStopTail, .live, .exit 1⟩
          else if env.panicAt = some .goUpdateResume then
            ⟨readyTrace k ++ ((schedTrace env.username env.password).take 2 ++ crashStopTail),
              .live, .exit 1⟩
          else if env.panicAt = some .addFunc9 then
            ⟨readyTrace k ++ ((schedTrace env.username env.password).take 3 ++ crashStopTail),
              .live, .exit 1⟩
          else if env.panicAt = some .addFunc14 then
            ⟨readyTrace k ++ ((schedTrace env.username env.password).take 4 ++ crashStopTail),
              .live, .exit 1⟩
          else if env.panicAt = some .addFunc18 then
            ⟨readyTrace k ++ ((schedTrace env.username env.password).take 5 ++ crashStopTail),
              .live, .exit 1⟩
          else if env.panicAt = some .cronStart then
            ⟨readyTrace k ++ ((schedTrace env.username env.password).take 6 ++ crashStopTail),
              .live, .exit 1⟩
          else
            ⟨readyTrace k ++ schedTrace env.username env.password, .live, .block⟩ := by
  have hw := waitForChromeDriver_out env
  have hs := stopChromeDriver_out env
  by_cases h1 : env.panicAt = some .godotenvLoad
  · simp [main, stage, deferRecover, raisePanic, bind, Go.bind, call, logPrintln, logFatal,
      osExit, h1, crashTail]
  by_cases h2 : env.dotenvErr = true
  · simp [main, stage, deferRecover, raisePanic, bind, Go.bind, call, logPrintln, logFatal,
      osExit, h1, h2]
  by_cases h3 : env.panicAt = some .getenv
  · simp [main, stage, deferRecover, raisePanic, bind, Go.bind, call, logPrintln, logFatal,
      osExit, pure, h1, h2, h3, crashTail]
  by_cases h4 : env.username = "" ∨ env.password = ""
  · simp [main, stage, deferRecover, raisePanic, bind, Go.bind, call, logPrintln, logFatal,
      osExit, pure, h1, h2, h3, h4, envTrace]
  by_cases h5 : env.panicAt = some .startChromeDriver
  · simp [main, stage, deferRecover, raisePanic, bind, Go.bind, call, logPrintln, logFatal,
      osExit, pure, h1, h2, h3, h4, h5, envTrace, crashTail]
  by_cases h6 : env.startErr = true
  · simp [main, stage, deferRecover, startChromeDriver, cmdStart, setHandle, raisePanic, bind,
      Go.bind, call, logPrintln, logFatal, osExit, pure, h1, h2, h3, h4, h5, h6, envTrace,
      startTrace]
  by_cases h7 : env.panicAt = some .setupGracefulShutdown
  · simp [main, stage, deferRecover, deferCall, startChromeDriver, setupGracefulShutdown, cmdStart,
      setHandle, raisePanic, bind, Go.bind, call, logPrintln, logFatal, osExit, pure, hs, hw,
      h1, h2, h3, h4, h5, h6, envTrace, startTrace, shutdownTrace, readyTrace, schedTrace,
      crashStopTail, h7]
  by_cases h8 : env.panicAt = some .waitForChromeDriver
  · simp [main, stage, deferRecover, deferCall, startChromeDriver, setupGracefulShutdown, cmdStart,
      setHandle, raisePanic, bind, Go.bind, call, logPrintln, logFatal, osExit, pure, hs, hw,
      h1, h2, h3, h4, h5, h6, envTrace, startTrace, shutdownTrace, readyTrace, schedTrace,
      crashStopTail, h7, h8]
  cases hfr : firstReady env with
  | none =>
    simp only [hfr] at hw
    simp [main, stage, deferRecover, deferCall, startChromeDriver, setupGracefulShutdown, cmdStart,
      setHandle, raisePanic, bind, Go.bind, call, logPrintln, logFatal, osExit, pure, hs, hw,
      h1, h2, h3, h4, h5, h6, envTrace, startTrace, shutdownTrace, readyTrace, schedTrace,
      crashStopTail, h7, h8]
  | some k =>
    simp only [hfr] at hw
    by_cases p1 : env.panicAt = some .cronNew
    · simp [main, stage, deferRecover, deferCall, startChromeDriver, setupGracefulShutdown, cmdStart,
      setHandle, raisePanic, bind, Go.bind, call, logPrintln, logFatal, osExit, pure, hs, hw,
      h1, h2, h3, h4, h5, h6, envTrace, startTrace, shutdownTrace, readyTrace, schedTrace,
      crashStopTail, h7, h8, p1]
    by_cases p2 : env.panicAt = some .goUpdateResume
    · simp [main, stage, deferRecover, deferCall, startChromeDriver, setupGracefulShutdown, cmdStart,
      setHandle, raisePanic, bind, Go.bind, call, logPrintln, logFatal, osExit, pure, hs, hw,
      h1, h2, h3, h4, h5, h6, envTrace, startTrace, shutdownTrace, readyTrace, schedTrace,
      crashStopTail, h7, h8, p1, p2]
    by_cases p3 : env.panicAt = some .addFunc9
    · simp [main, stage, deferRecover, deferCall, startChromeDriver, setupGracefulShutdown, cmdStart,
      setHandle, raisePanic, bind, Go.bind, call, logPrintln, logFatal, osExit, pure, hs, hw,
      h1, h2, h3, h4, h5, h6, envTrace, startTrace, shutdownTrace, readyTrace, schedTrace,
      crashStopTail, h7, h8, p1, p2, p3]
    by_cases p4 : env.panicAt = some .addFunc14
    · simp [main, stage, deferRecover, deferCall, startChromeDriver, setupGracefulShutdown, cmdStart,
      setHandle, raisePanic, bind, Go.bind, call, logPrintln, logFatal, osExit, pure, hs, hw,
      h1, h2, h3, h4, h5, h6, envTrace, startTrace, shutdownTrace, readyTrace, schedTrace,
      crashStopTail, h7, h8, p1, p2, p3, p4]
    by_cases p5 : env.panicAt = some .addFunc18
    · simp [main, stage, deferRecover, deferCall, startChromeDriver, setupGracefulShutdown, cmdStart,
      setHandle, raisePanic, bind, Go.bind, call, logPrintln, logFatal, osExit, pure, hs, hw,
      h1, h2, h3, h4, h5, h6, envTrace, startTrace, shutdownTrace, readyTrace, schedTrace,
      crashStopTail, h7, h8, p1, p2, p3, p4, p5]
    by_cases p6 : env.panicAt = some .cronStart
    · simp [main, stage, deferRecover, deferCall, startChromeDriver, setupGracefulShutdown, cmdStart,
      setHandle, raisePanic, bind, Go.bind, call, logPrintln, logFatal, osExit, pure, hs, hw,
      h1, h2, h3, h4, h5, h6, envTrace, startTrace, shutdownTrace, readyTrace, schedTrace,
      crashStopTail, h7, h8, p1, p2, p3, p4, p5, p6]
    simp [main, stage, deferRecover, deferCall, startChromeDriver, setupGracefulShutdown, cmdStart,
      setHandle, raisePanic, bind, Go.bind, call, logPrintln, logFatal, osExit, pure, hs, hw,
      h1, h2, h3, h4, h5, h6, envTrace, startTrace, shutdownTrace, readyTrace, schedTrace,
      crashStopTail, h7, h8, p1, p2, p3, p4, p5, p6]

theorem isSched_failedProbes (k : Nat) : ∀ e ∈ failedProbes k, e.isSched = false := by
  induction k with
  | zero => simp [failedProbes]
  | succ n ih =>
    simp only [failedProbes, List.replicate_succ, List.flatten_cons] at ih ⊢
    simpa [Event.isSched] using ih

theorem httpGet_not_mem_shutdownTrace : Event.httpGet ∉ shutdownTrace := by
  decide

theorem isSched_shutdownTrace : ∀ e ∈ shutdownTrace, e.isSched = false := by
  decide

theorem isSched_readyTrace (k : Nat) : ∀ e ∈ readyTrace k, e.isSched = false := by
  intro e he
  simp only [readyTrace, List.mem_append, List.mem_cons, List.mem_singleton,
    List.not_mem_nil, or_false] at he
  rcases he with he | he | he | he | he
  · exact isSched_shutdownTrace e he
  · subst he; rfl
  · exact isSched_failedProbes k e he
  · subst he; rfl
  · subst he; rfl

/-- If the events of `A` all fail `p`, an occurrence of an event satisfying `p`
in `A ++ B` lies after `A`. -/
theorem occurrence_after {α : Type} (p : α → Bool) (A : List α)
    (hA : ∀ x ∈ A, p x = false) (B pre post : List α) (e : α) (he : p e = true)
    (heq : A ++ B = pre ++ e :: post) : ∃ pre2, pre = A ++ pre2 := by
  induction A generalizing pre with
  | nil => exact ⟨pre, rfl⟩
  | cons a A ih =>
    cases pre with
    | nil =>
      simp only [List.cons_append, List.nil_append, List.cons.injEq] at heq
      have := hA a (List.mem_cons_self a A)
      rw [heq.1, he] at this
      cases this
    | cons b pre =>
      simp only [List.cons_append, List.cons.injEq] at heq
      obtain ⟨pre2, hp⟩ := ih (fun x hx => hA x (List.mem_cons_of_mem a hx)) pre heq.2
      exact ⟨pre2, by rw [heq.1, hp]; rfl⟩

theorem ready_order (k : Nat) :
    List.Sublist [Event.getenv "NAUKRI_USERNAME", .getenv "NAUKRI_PASSWORD", .cmdStart,
      .log "✅ ChromeDriver is ready."] (readyTrace k) := by
  have h1 : List.Sublist
      [Event.getenv "NAUKRI_USERNAME", .getenv "NAUKRI_PASSWORD", .cmdStart]
      shutdownTrace := by decide
  have h2 : List.Sublist [Event.log "✅ ChromeDriver is ready."]
      (.log "⏳ Waiting for ChromeDriver to become ready..." ::
        (failedProbes k ++ [.httpGet, .log "✅ ChromeDriver is ready."])) := by
    apply List.Sublist.cons
    apply List.sublist_append_of_sublist_right
    decide
  exact List.Sublist.append h1 h2

/-- Shape of a startup with respect to the scheduling phase: either no
scheduling event occurs, or the trace starts with the events up to readiness
and the earlier checks all passed. -/
theorem main_sched_shape (env : Env) (h : Handle) :
    (∀ e ∈ (main env h).trace, e.isSched = false) ∨
    (∃ k X, firstReady env = some k ∧ env.dotenvErr = false ∧ env.username ≠ "" ∧
      env.password ≠ "" ∧ env.startErr = false ∧ (main env h).trace = readyTrace k ++ X) := by
  rw [main_out]
  by_cases h1 : env.panicAt = some .godotenvLoad
  · left; rw [if_pos h1]; dsimp only; decide
  rw [if_neg h1]
  by_cases h2 : env.dotenvErr = true
  · left; rw [if_pos h2]; dsimp only; decide
  rw [if_neg h2]
  by_cases h3 : env.panicAt = some .getenv
  · left; rw [if_pos h3]; dsimp only; decide
  rw [if_neg h3]
  by_cases h4 : env.username = "" ∨ env.password = ""
  · left; rw [if_pos h4]; dsimp only; decide
  rw [if_neg h4]
  by_cases h5 : env.panicAt = some .startChromeDriver
  · left; rw [if_pos h5]; dsimp only; decide
  rw [if_neg h5]
  by_cases h6 : env.startErr = true
  · left; rw [if_pos h6]; dsimp only; decide
  rw [if_neg h6]
  by_cases h7 : env.panicAt = some .setupGracefulShutdown
  · left; rw [if_pos h7]; dsimp only; decide
  rw [if_neg h7]
  by_cases h8 : env.panicAt = some .waitForChromeDriver
  · left; rw [if_pos h8]; dsimp only; decide
  rw [if_neg h8]
  cases hfr : firstReady env with
  | none =>
    left
    dsimp only
    intro e he
    simp only [List.mem_append, List.mem_cons, List.mem_singleton, List.not_mem_nil,
      or_false] at he
    rcases he with he | he | he | he | he
    · exact isSched_shutdownTrace e he
    · subst he; rfl
    · exact isSched_failedProbes 10 e he
    · subst he; rfl
    · subst he; rfl
  | some k =>
    right
    have hu : env.username ≠ "" := fun hx => h4 (Or.inl hx)
    have hp : env.password ≠ "" := fun hx => h4 (Or.inr hx)
    have hd : env.dotenvErr = false := by simpa using h2
    have hs : env.startErr = false := by simpa using h6
    dsimp only
    split_ifs
    all_goals exact ⟨k, _, rfl, hd, hu, hp, hs, rfl⟩

/-- C3: when the principal or the credential is the empty string, `main` ends
the process with exit code 1 through a fatal log line, `chromeCmd` is left as it
was, and the trace contains nothing of `startChromeDriver` (no start message, no
`exec.Command`, no `Start`), no `signal.Notify`, no handler goroutine, no probe
and no scheduling event; when `.env` loads and nothing panics the trace is the
credential check followed by the fatal line. -/
theorem main_missing_credentials (env : Env) (h : Handle)
    (hc : env.username = "" ∨ env.password = "") :
    (main env h).res = .exit 1 ∧
    (main env h).handle = h ∧
    (main env h).trace.getLast? = some (.exit 1) ∧
    Event.log "🚀 Starting ChromeDriver..." ∉ (main env h).trace ∧
    Event.execCommand ∉ (main env h).trace ∧
    Event.cmdStart ∉ (main env h).trace ∧
    Event.signalNotify ∉ (main env h).trace ∧
    Event.goHandler ∉ (main env h).trace ∧
    Event.httpGet ∉ (main env h).trace ∧
    (∀ e ∈ (main env h).trace, e.isSched = false) ∧
    (env.panicAt = none → env.dotenvErr = false →
      (main env h).trace =
        [.log "🚀 Resume Auto-Updater starting up...", .godotenvLoad,
         .getenv "NAUKRI_USERNAME", .getenv "NAUKRI_PASSWORD",
         .log "❌ NAUKRI_USERNAME or NAUKRI_PASSWORD missing in .env", .exit 1]) := by
  rw [main_out]
  by_cases h1 : env.panicAt = some .godotenvLoad
  · rw [if_pos h1]; simp [h1, crashTail, Event.isSched]
  rw [if_neg h1]
  by_cases h2 : env.dotenvErr = true
  · rw [if_pos h2]; simp [h2, Event.isSched]
  rw [if_neg h2]
  by_cases h3 : env.panicAt = some .getenv
  · rw [if_pos h3]; simp [h3, crashTail, Event.isSched]
  rw [if_neg h3, if_pos hc]
  simp [envTrace, Event.isSched]

/-- C3, at an outside world whose principal is empty. -/
theorem main_missing_credentials_witness :
    (main { Env.healthy with username := "" } .nil).res = .exit 1 ∧
    Event.cmdStart ∉ (main { Env.healthy with username := "" } .nil).trace :=
  ⟨(main_missing_credentials { Env.healthy with username := "" } .nil (Or.inl rfl)).1,
   (main_missing_credentials { Env.healthy with username := "" } .nil (Or.inl rfl)).2.2.2.2.2.1⟩

theorem mem_failedProbes (k : Nat) (e : Event) (he : e ∈ failedProbes k) :
    e = .httpGet ∨ e = .sleep 500 := by
  induction k with
  | zero => simp [failedProbes] at he
  | succ n ih =>
    simp only [failedProbes, List.replicate_succ, List.flatten_cons, List.cons_append,
      List.nil_append, List.mem_cons] at he ih
    rcases he with he | he | he
    · exact Or.inl he
    · exact Or.inr he
    · exact ih he

theorem totalSleep_shutdownTrace : totalSleep shutdownTrace = 0 := by
  decide

theorem count_httpGet_shutdownTrace : shutdownTrace.count .httpGet = 0 := by
  decide

theorem httpGet_mem_readyTrace (k : Nat) : Event.httpGet ∈ readyTrace k := by
  rw [readyTrace]
  apply List.mem_append_right
  apply List.mem_cons_of_mem
  apply List.mem_append_right
  decide

/-- When none of the 10 probes is ready, `main` ends in `os.Exit(1)` without a
scheduling event, and if a probe was issued the trace is the whole polling. -/
theorem main_never_ready_core (env : Env) (h : Handle)
    (hno : ∀ j, j < 10 → (env.probe j).ready = false) :
    (main env h).res = .exit 1 ∧
    (∀ e ∈ (main env h).trace, e.isSched = false) ∧
    (Event.httpGet ∈ (main env h).trace →
      (main env h).trace =
        shutdownTrace ++ .log "⏳ Waiting for ChromeDriver to become ready..." ::
          (failedProbes 10 ++
            [.log "❌ ChromeDriver did not become ready in time.", .exit 1]) ∧
      (main env h).trace.count .httpGet = 10 ∧
      totalSleep (main env h).trace = 5000) := by
  have hfr := firstReady_of_none env hno
  rw [main_out, hfr]
  by_cases h1 : env.panicAt = some .godotenvLoad
  · rw [if_pos h1]; dsimp only; decide
  rw [if_neg h1]
  by_cases h2 : env.dotenvErr = true
  · rw [if_pos h2]; dsimp only; decide
  rw [if_neg h2]
  by_cases h3 : env.panicAt = some .getenv
  · rw [if_pos h3]; dsimp only; decide
  rw [if_neg h3]
  by_cases h4 : env.username = "" ∨ env.password = ""
  · rw [if_pos h4]; dsimp only; decide
  rw [if_neg h4]
  by_cases h5 : env.panicAt = some .startChromeDriver
  · rw [if_pos h5]; dsimp only; decide
  rw [if_neg h5]
  by_cases h6 : env.startErr = true
  · rw [if_pos h6]; dsimp only; decide
  rw [if_neg h6]
  by_cases h7 : env.panicAt = some .setupGracefulShutdown
  · rw [if_pos h7]; dsimp only; decide
  rw [if_neg h7]
  by_cases h8 : env.panicAt = some .waitForChromeDriver
  · rw [if_pos h8]; dsimp only; decide
  rw [if_neg h8]
  dsimp only
  refine ⟨rfl, ?_, fun _ => ⟨rfl, ?_, ?_⟩⟩
  · intro e he
    simp only [List.mem_append, List.mem_cons, List.mem_singleton, List.not_mem_nil,
      or_false] at he
    rcases he with he | he | he | he | he
    · exact isSched_shutdownTrace e he
    · subst he; rfl
    · exact isSched_failedProbes 10 e he
    · subst he; rfl
    · subst he; rfl
  · simp [List.count_append, count_httpGet_shutdownTrace, count_httpGet_failedProbes]
  · simp [totalSleep_append, totalSleep_shutdownTrace, totalSleep_failedProbes, totalSleep]

/-- When `.env` loads, the credentials are non-empty, `chromeCmd.Start`
succeeds and no statement of `main` up to and including the readiness wait
panics, a probe is issued. -/
theorem main_polling_reached (env : Env) (h : Handle)
    (hd : env.dotenvErr = false) (hu : env.username ≠ "") (hp : env.password ≠ "")
    (hs : env.startErr = false)
    (hpanic : env.panicAt ∉ [some Stage.godotenvLoad, some .getenv, some .startChromeDriver,
      some .setupGracefulShutdown, some .waitForChromeDriver]) :
    Event.httpGet ∈ (main env h).trace := by
  have h1 : ¬ env.panicAt = some .godotenvLoad := fun hx => hpanic (by rw [hx]; decide)
  have h3 : ¬ env.panicAt = some .getenv := fun hx => hpanic (by rw [hx]; decide)
  have h5 : ¬ env.panicAt = some .startChromeDriver := fun hx => hpanic (by rw [hx]; decide)
  have h7 : ¬ env.panicAt = some .setupGracefulShutdown :=
    fun hx => hpanic (by rw [hx]; decide)
  have h8 : ¬ env.panicAt = some .waitForChromeDriver := fun hx => hpanic (by rw [hx]; decide)
  have h2 : ¬ env.dotenvErr = true := by rw [hd]; decide
  have h6 : ¬ env.startErr = true := by rw [hs]; decide
  have h4 : ¬ (env.username = "" ∨ env.password = "") := fun hx => hx.elim hu hp
  rw [main_out, if_neg h1, if_neg h2, if_neg h3, if_neg h4, if_neg h5, if_neg h6, if_neg h7,
    if_neg h8]
  cases firstReady env with
  | none => dsimp only; decide
  | some k =>
    dsimp only
    split_ifs
    all_goals exact List.mem_append_left _ (httpGet_mem_readyTrace k)

/-- C8 as stated fails: with non-empty credentials and no probe answering 200,
a startup in which `chromeCmd.Start` fails ends in `os.Exit(1)` after no probe
and no sleep at all, not after 10 probes and 5000 ms. -/
theorem main_start_failure_no_polling :
    Env.startFails.username ≠ "" ∧ Env.startFails.password ≠ "" ∧
    (∀ j, j < 10 → Env.startFails.probe j ≠ .response 200) ∧
    (main Env.startFails .nil).res = .exit 1 ∧
    (main Env.startFails .nil).trace =
      [.log "🚀 Resume Auto-Updater starting up...", .godotenvLoad,
       .getenv "NAUKRI_USERNAME", .getenv "NAUKRI_PASSWORD",
       .log "🚀 Starting ChromeDriver...", .execCommand, .cmdStart,
       .log "❌ Failed to start ChromeDriver: %v", .exit 1] ∧
    (main Env.startFails .nil).trace.count .httpGet = 0 ∧
    totalSleep (main Env.startFails .nil).trace = 0 := by
  refine ⟨by decide, by decide, ?_, by decide, by decide, by decide, by decide⟩
  intro j hj
  interval_cases j <;> decide

/-- C8, amended: when none of the 10 probes is an error-free 200, `main` ends
the process with exit code 1 and its trace has no scheduling event (no scheduler
creation, no registration, no scheduler start, no immediate run); if moreover
`.env` loads, the credentials are non-empty, `chromeCmd.Start` succeeds and no
statement of `main` up to and including the readiness wait panics (or, more
generally, whenever a probe was issued), the trace is the startup up to the
signal handler, 10 probe-then-sleep pairs, the fatal line and `os.Exit(1)`, with
10 probes and 5000 ms slept in total.  On every startup, each scheduling event
is preceded, in this order, by the two credential reads, the subprocess start
and the ready message, and then `.env` loaded, the credentials are non-empty,
the start succeeded and one of the 10 probes was an error-free 200. -/
theorem main_never_ready_and_order (env : Env) (h : Handle) :
    ((∀ j, j < 10 → env.probe j ≠ .response 200) →
      (main env h).res = .exit 1 ∧
      (∀ e ∈ (main env h).trace, e.isSched = false) ∧
      (Event.httpGet ∈ (main env h).trace →
        (main env h).trace =
          shutdownTrace ++ .log "⏳ Waiting for ChromeDriver to become ready..." ::
            (failedProbes 10 ++
              [.log "❌ ChromeDriver did not become ready in time.", .exit 1]) ∧
        (main env h).trace.count .httpGet = 10 ∧
        totalSleep (main env h).trace = 5000) ∧
      (env.dotenvErr = false → env.username ≠ "" → env.password ≠ "" →
        env.startErr = false →
        env.panicAt ∉ [some Stage.godotenvLoad, some .getenv, some .startChromeDriver,
          some .setupGracefulShutdown, some .waitForChromeDriver] →
          (main env h).trace =
            shutdownTrace ++ .log "⏳ Waiting for ChromeDriver to become ready..." ::
              (failedProbes 10 ++
                [.log "❌ ChromeDriver did not become ready in time.", .exit 1]) ∧
          (main env h).trace.count .httpGet = 10 ∧
          totalSleep (main env h).trace = 5000)) ∧
    (∀ (pre : List Event) (e : Event) (post : List Event),
      (main env h).trace = pre ++ e :: post → e.isSched = true →
        List.Sublist [Event.getenv "NAUKRI_USERNAME", .getenv "NAUKRI_PASSWORD", .cmdStart,
          .log "✅ ChromeDriver is ready."] pre ∧
        env.username ≠ "" ∧ env.password ≠ "" ∧ env.dotenvErr = false ∧
        env.startErr = false ∧
        ∃ k, k < 10 ∧ env.probe k = .response 200 ∧
          ∀ j, j < k → env.probe j ≠ .response 200) := by
  constructor
  · intro hno
    have hcore := main_never_ready_core env h (fun j hj => (not_ready_iff _).mpr (hno j hj))
    exact ⟨hcore.1, hcore.2.1, hcore.2.2,
      fun hd hu hp hs hpanic => hcore.2.2 (main_polling_reached env h hd hu hp hs hpanic)⟩
  · intro pre e post heq he
    rcases main_sched_shape env h with hnone | ⟨k, X, hfr, hd, hu, hp, hs, htr⟩
    · have hmem : e ∈ (main env h).trace := by
        rw [heq]; exact List.mem_append_right _ (List.mem_cons_self _ _)
      rw [hnone e hmem] at he
      cases he
    · rw [htr] at heq
      obtain ⟨pre2, hpre⟩ :=
        occurrence_after Event.isSched (readyTrace k) (isSched_readyTrace k) X pre post e he heq
      obtain ⟨hk, hyes, hbefore⟩ := firstReady_some env k hfr
      refine ⟨?_, hu, hp, hd, hs, k, hk, (ready_iff _).mp hyes,
        fun j hj => (not_ready_iff _).mp (hbefore j hj)⟩
      rw [hpre]
      exact (ready_order k).trans (List.sublist_append_left _ _)

/-- C8 amended, at an outside world in which ChromeDriver starts and never
answers 200 (one probe answers 201, one 503, the others fail). -/
theorem main_never_ready_and_order_witness :
    (main Env.neverReady .nil).res = .exit 1 ∧
    (∀ e ∈ (main Env.neverReady .nil).trace, e.isSched = false) ∧
    (main Env.neverReady .nil).trace =
      shutdownTrace ++ .log "⏳ Waiting for ChromeDriver to become ready..." ::
        (failedProbes 10 ++
          [.log "❌ ChromeDriver did not become ready in time.", .exit 1]) ∧
    (main Env.neverReady .nil).trace.count .httpGet = 10 ∧
    totalSleep (main Env.neverReady .nil).trace = 5000 :=
  have hno : ∀ j, j < 10 → Env.neverReady.probe j ≠ .response 200 := by
    intro j hj; interval_cases j <;> decide
  ⟨((main_never_ready_and_order Env.neverReady .nil).1 hno).1,
   ((main_never_ready_and_order Env.neverReady .nil).1 hno).2.1,
   ((main_never_ready_and_order Env.neverReady .nil).1 hno).2.2.2 rfl (by decide) (by decide)
     rfl (by decide)⟩

theorem kill_not_mem_readyTrace (k : Nat) : Event.kill ∉ readyTrace k := by
  intro he
  simp only [readyTrace, List.mem_append, List.mem_cons, List.mem_singleton,
    List.not_mem_nil, or_false] at he
  rcases he with he | he | he | he | he
  · exact absurd he (by decide)
  · cases he
  · rcases mem_failedProbes k _ he with h1 | h1 <;> cases h1
  · cases he
  · cases he

theorem stopLog_not_mem_readyTrace (k : Nat) :
    Event.log "🛑 ChromeDriver stopped." ∉ readyTrace k := by
  intro he
  simp only [readyTrace, List.mem_append, List.mem_cons, List.mem_singleton,
    List.not_mem_nil, or_false] at he
  rcases he with he | he | he | he | he
  · exact absurd he (by decide)
  · exact absurd he (by decide)
  · rcases mem_failedProbes k _ he with h1 | h1 <;> cases h1
  · cases he
  · exact absurd he (by decide)

/-- A startup reaches its final block only through the whole startup sequence. -/
theorem main_block_shape (env : Env) (h : Handle) (hb : (main env h).res = .block) :
    ∃ k, firstReady env = some k ∧
      main env h = ⟨readyTrace k ++ schedTrace env.username env.password, .live, .block⟩ := by
  rw [main_out] at hb ⊢
  by_cases h1 : env.panicAt = some .godotenvLoad
  · rw [if_pos h1] at hb; cases hb
  rw [if_neg h1] at hb ⊢
  by_cases h2 : env.dotenvErr = true
  · rw [if_pos h2] at hb; cases hb
  rw [if_neg h2] at hb ⊢
  by_cases h3 : env.panicAt = some .getenv
  · rw [if_pos h3] at hb; cases hb
  rw [if_neg h3] at hb ⊢
  by_cases h4 : env.username = "" ∨ env.password = ""
  · rw [if_pos h4] at hb; cases hb
  rw [if_neg h4] at hb ⊢
  by_cases h5 : env.panicAt = some .startChromeDriver
  · rw [if_pos h5] at hb; cases hb
  rw [if_neg h5] at hb ⊢
  by_cases h6 : env.startErr = true
  · rw [if_pos h6] at hb; cases hb
  rw [if_neg h6] at hb ⊢
  by_cases h7 : env.panicAt = some .setupGracefulShutdown
  · rw [if_pos h7] at hb; cases hb
  rw [if_neg h7] at hb ⊢
  by_cases h8 : env.panicAt = some .waitForChromeDriver
  · rw [if_pos h8] at hb; cases hb
  rw [if_neg h8] at hb ⊢
  cases hfr : firstReady env with
  | none => rw [hfr] at hb; cases hb
  | some k =>
    rw [hfr] at hb
    dsimp only at hb ⊢
    refine ⟨k, rfl, ?_⟩
    split_ifs at hb ⊢
    all_goals rfl

/-- Shape of a startup with respect to readiness polling: either no probe is
issued, or the trace starts with the events up to the installation of the
signal handler and `chromeCmd` ends live. -/
theorem main_probe_shape (env : Env) (h : Handle) :
    Event.httpGet ∉ (main env h).trace ∨
    (∃ X, (main env h).trace = shutdownTrace ++ X ∧ (main env h).handle = .live) := by
  rw [main_out]
  by_cases h1 : env.panicAt = some .godotenvLoad
  · left; rw [if_pos h1]; dsimp only; decide
  rw [if_neg h1]
  by_cases h2 : env.dotenvErr = true
  · left; rw [if_pos h2]; dsimp only; decide
  rw [if_neg h2]
  by_cases h3 : env.panicAt = some .getenv
  · left; rw [if_pos h3]; dsimp only; decide
  rw [if_neg h3]
  by_cases h4 : env.username = "" ∨ env.password = ""
  · left; rw [if_pos h4]; dsimp only; decide
  rw [if_neg h4]
  by_cases h5 : env.panicAt = some .startChromeDriver
  · left; rw [if_pos h5]; dsimp only; decide
  rw [if_neg h5]
  by_cases h6 : env.startErr = true
  · left; rw [if_pos h6]; dsimp only; decide
  rw [if_neg h6]
  by_cases h7 : env.panicAt = some .setupGracefulShutdown
  · left; rw [if_pos h7]; dsimp only; decide
  rw [if_neg h7]
  right
  by_cases h8 : env.panicAt = some .waitForChromeDriver
  · rw [if_pos h8]; exact ⟨_, rfl, rfl⟩
  rw [if_neg h8]
  cases firstReady env with
  | none => exact ⟨_, rfl, rfl⟩
  | some k =>
    dsimp only
    split_ifs
    all_goals exact ⟨_, by rw [readyTrace, List.append_assoc], rfl⟩

/-- C9: the signal handler logs, calls `stopChromeDriver` and then ends the
process with exit code 0, whatever `chromeCmd` is and whatever `Process.Kill`
returns; with a live handle its trace is the log line, the kill, the stop line
and `os.Exit(0)`, in this order.  In every startup each probe is preceded by the
subprocess start, `signal.Notify` and the launch of the handler goroutine, in
this order; and `chromeCmd` is live whenever a probe was issued and whenever
`main` reaches its final block, where the handler is installed too. -/
theorem shutdownHandler_stops_then_exits (env : Env) (h h0 : Handle) :
    (shutdownHandler env h).res = .exit 0 ∧
    (shutdownHandler env h).trace =
      .log "⚠️ Received shutdown signal." :: ((stopChromeDriver env h).trace ++ [.exit 0]) ∧
    (shutdownHandler env .live).trace =
      [.log "⚠️ Received shutdown signal.", .kill, .log "🛑 ChromeDriver stopped.", .exit 0] ∧
    (∀ (pre post : List Event), (main env h0).trace = pre ++ .httpGet :: post →
      List.Sublist [Event.cmdStart, .signalNotify, .goHandler] pre) ∧
    (Event.httpGet ∈ (main env h0).trace → (main env h0).handle = .live) ∧
    ((main env h0).res = .block →
      (main env h0).handle = .live ∧ Event.goHandler ∈ (main env h0).trace) := by
  refine ⟨?_, ?_, ?_, ?_, ?_, ?_⟩
  · simp [shutdownHandler, bind, Go.bind, call, logPrintln, osExit, stopChromeDriver_out]
  · simp [shutdownHandler, bind, Go.bind, call, logPrintln, osExit, stopChromeDriver_out]
  · simp [shutdownHandler, bind, Go.bind, call, logPrintln, osExit, stopChromeDriver_out]
  · intro pre post heq
    rcases main_probe_shape env h0 with hnone | ⟨X, htr, _⟩
    · exact absurd (by rw [heq]; exact List.mem_append_right _ (List.mem_cons_self _ _)) hnone
    · rw [htr] at heq
      obtain ⟨pre2, hpre⟩ :=
        occurrence_after (fun e => decide (e = Event.httpGet)) shutdownTrace (by decide) X
          pre post .httpGet (by decide) heq
      rw [hpre]
      exact List.Sublist.trans (by decide) (List.sublist_append_left shutdownTrace pre2)
  · intro hmem
    rcases main_probe_shape env h0 with hnone | ⟨X, _, hlive⟩
    · exact absurd hmem hnone
    · exact hlive
  · intro hb
    obtain ⟨k, _, hout⟩ := main_block_shape env h0 hb
    rw [hout]
    refine ⟨rfl, List.mem_append_left _ ?_⟩
    rw [readyTrace]
    exact List.mem_append_left _ (by decide)

/-- C9, at a healthy startup: the ten events before the first probe contain
the start of the subprocess and the installation of the handler, in this order. -/
theorem shutdownHandler_stops_then_exits_witness :
    (shutdownHandler Env.healthy .live).res = .exit 0 ∧
    List.Sublist [Event.cmdStart, .signalNotify, .goHandler]
      ((main Env.healthy .nil).trace.take 10) ∧
    (main Env.healthy .nil).handle = .live :=
  ⟨(shutdownHandler_stops_then_exits Env.healthy .live .nil).1,
   (shutdownHandler_stops_then_exits Env.healthy .live .nil).2.2.2.1
     ((main Env.healthy .nil).trace.take 10) ((main Env.healthy .nil).trace.drop 11)
     (by decide),
   (shutdownHandler_stops_then_exits Env.healthy .live .nil).2.2.2.2.1 (by decide)⟩

/-- C10: `main` never returns normally: it ends in `os.Exit(1)` or blocks.
When the subprocess was started successfully and the process ends in a fatal
exit without a panic, that exit is the readiness-budget exhaustion: the exit
code is 1, the trace ends with the fatal line and `os.Exit(1)`, it has no kill
and no stop line (the deferred `stopChromeDriver` did not run) and `chromeCmd`
is still live.  A kill occurs in a startup trace only when a statement of
`main` panicked, and then the trace ends with the panic, the kill, the stop
line, the crash line and `os.Exit(1)`, with exactly one kill. -/
theorem main_fatal_exit_skips_deferred_stop (env : Env) (h : Handle) :
    ((main env h).res = .exit 1 ∨ (main env h).res = .block) ∧
    (env.startErr = false → Event.cmdStart ∈ (main env h).trace →
      Event.panic ∉ (main env h).trace → (main env h).res = .exit 1 →
        firstReady env = none ∧
        Event.kill ∉ (main env h).trace ∧
        Event.log "🛑 ChromeDriver stopped." ∉ (main env h).trace ∧
        (main env h).handle = .live ∧
        List.IsSuffix [Event.log "❌ ChromeDriver did not become ready in time.", .exit 1]
          (main env h).trace) ∧
    (Event.kill ∈ (main env h).trace →
      env.panicAt ≠ none ∧
      List.IsSuffix crashStopTail (main env h).trace ∧
      (main env h).trace.count .kill = 1 ∧
      (main env h).res = .exit 1 ∧
      (main env h).handle = .live) := by
  rw [main_out]
  by_cases h1 : env.panicAt = some .godotenvLoad
  · rw [if_pos h1]; dsimp only
    exact ⟨Or.inl rfl, fun _ hc => absurd hc (by decide), fun hk => absurd hk (by decide)⟩
  rw [if_neg h1]
  by_cases h2 : env.dotenvErr = true
  · rw [if_pos h2]; dsimp only
    exact ⟨Or.inl rfl, fun _ hc => absurd hc (by decide), fun hk => absurd hk (by decide)⟩
  rw [if_neg h2]
  by_cases h3 : env.panicAt = some .getenv
  · rw [if_pos h3]; dsimp only
    exact ⟨Or.inl rfl, fun _ hc => absurd hc (by decide), fun hk => absurd hk (by decide)⟩
  rw [if_neg h3]
  by_cases h4 : env.username = "" ∨ env.password = ""
  · rw [if_pos h4]; dsimp only
    exact ⟨Or.inl rfl, fun _ hc => absurd hc (by decide), fun hk => absurd hk (by decide)⟩
  rw [if_neg h4]
  by_cases h5 : env.panicAt = some .startChromeDriver
  · rw [if_pos h5]; dsimp only
    exact ⟨Or.inl rfl, fun _ hc => absurd hc (by decide), fun hk => absurd hk (by decide)⟩
  rw [if_neg h5]
  by_cases h6 : env.startErr = true
  · rw [if_pos h6]; dsimp only
    refine ⟨Or.inl rfl, ?_, fun hk => absurd hk (by decide)⟩
    intro hs
    rw [hs] at h6
    cases h6
  rw [if_neg h6]
  by_cases h7 : env.panicAt = some .setupGracefulShutdown
  · rw [if_pos h7]; dsimp only
    exact ⟨Or.inl rfl, fun _ _ hp => absurd (by decide) hp,
      fun _ => ⟨by rw [h7]; exact Option.some_ne_none _, by decide, by decide, rfl, rfl⟩⟩
  rw [if_neg h7]
  by_cases h8 : env.panicAt = some .waitForChromeDriver
  · rw [if_pos h8]; dsimp only
    exact ⟨Or.inl rfl, fun _ _ hp => absurd (by decide) hp,
      fun _ => ⟨by rw [h8]; exact Option.some_ne_none _, by decide, by decide, rfl, rfl⟩⟩
  rw [if_neg h8]
  cases hfr : firstReady env with
  | none =>
    dsimp only
    have hk : Event.kill ∉ shutdownTrace ++
        .log "⏳ Waiting for ChromeDriver to become ready..." ::
          (failedProbes 10 ++
            [.log "❌ ChromeDriver did not become ready in time.", .exit 1]) := by
      decide
    refine ⟨Or.inl rfl, fun _ _ _ _ => ⟨rfl, hk, by decide, rfl, by decide⟩,
      fun hmem => absurd hmem hk⟩
  | some k =>
    dsimp only
    have hk := kill_not_mem_readyTrace k
    have hc : (readyTrace k).count .kill = 0 := List.count_eq_zero.mpr hk
    have hpa : ∀ s : Stage, env.panicAt = some s → env.panicAt ≠ none := by
      intro s hs
      rw [hs]
      exact Option.some_ne_none s
    have hpanic : ∀ X : List Event, Event.panic ∈ readyTrace k ++ (X ++ crashStopTail) :=
      fun X => List.mem_append_right _ (List.mem_append_right _ (by decide))
    have hsuf : ∀ X : List Event,
        List.IsSuffix crashStopTail (readyTrace k ++ (X ++ crashStopTail)) :=
      fun X => ⟨readyTrace k ++ X, by rw [List.append_assoc]⟩
    by_cases p1 : env.panicAt = some .cronNew
    · rw [if_pos p1]
      refine ⟨Or.inl rfl, fun _ _ hp => absurd (List.mem_append_right _ (by decide)) hp,
        fun _ => ⟨hpa _ p1, ⟨readyTrace k, rfl⟩, ?_, rfl, rfl⟩⟩
      dsimp only
      rw [List.count_append, hc]
      decide
    rw [if_neg p1]
    by_cases p2 : env.panicAt = some .goUpdateResume
    · rw [if_pos p2]
      refine ⟨Or.inl rfl, fun _ _ hp => absurd (hpanic _) hp,
        fun _ => ⟨hpa _ p2, hsuf _, ?_, rfl, rfl⟩⟩
      dsimp only
      rw [List.count_append, hc]
      simp [schedTrace, crashStopTail]
    rw [if_neg p2]
    by_cases p3 : env.panicAt = some .addFunc9
    · rw [if_pos p3]
      refine ⟨Or.inl rfl, fun _ _ hp => absurd (hpanic _) hp,
        fun _ => ⟨hpa _ p3, hsuf _, ?_, rfl, rfl⟩⟩
      dsimp only
      rw [List.count_append, hc]
      simp [schedTrace, crashStopTail]
    rw [if_neg p3]
    by_cases p4 : env.panicAt = some .addFunc14
    · rw [if_pos p4]
      refine ⟨Or.inl rfl, fun _ _ hp => absurd (hpanic _) hp,
        fun _ => ⟨hpa _ p4, hsuf _, ?_, rfl, rfl⟩⟩
      dsimp only
      rw [List.count_append, hc]
      simp [schedTrace, crashStopTail]
    rw [if_neg p4]
    by_cases p5 : env.panicAt = some .addFunc18
    · rw [if_pos p5]
      refine ⟨Or.inl rfl, fun _ _ hp => absurd (hpanic _) hp,
        fun _ => ⟨hpa _ p5, hsuf _, ?_, rfl, rfl⟩⟩
      dsimp only
      rw [List.count_append, hc]
      simp [schedTrace, crashStopTail]
    rw [if_neg p5]
    by_cases p6 : env.panicAt = some .cronStart
    · rw [if_pos p6]
      refine ⟨Or.inl rfl, fun _ _ hp => absurd (hpanic _) hp,
        fun _ => ⟨hpa _ p6, hsuf _, ?_, rfl, rfl⟩⟩
      dsimp only
      rw [List.count_append, hc]
      simp [schedTrace, crashStopTail]
    rw [if_neg p6]
    refine ⟨Or.inr rfl, ?_, ?_⟩
    · intro _ _ _ hr
      cases hr
    · intro hmem
      rcases List.mem_append.mp hmem with hm | hm
      · exact absurd hm hk
      · simp [schedTrace] at hm

/-- C10, at an outside world in which ChromeDriver starts and never answers
200, and at one in which `cron.New` panics after readiness. -/
theorem main_fatal_exit_skips_deferred_stop_witness :
    (firstReady Env.neverReady = none ∧
      Event.kill ∉ (main Env.neverReady .nil).trace ∧
      Event.log "🛑 ChromeDriver stopped." ∉ (main Env.neverReady .nil).trace ∧
      (main Env.neverReady .nil).handle = .live ∧
      List.IsSuffix [Event.log "❌ ChromeDriver did not become ready in time.", .exit 1]
        (main Env.neverReady .nil).trace) ∧
    (Env.panicAtCronNew.panicAt ≠ none ∧
      List.IsSuffix crashStopTail (main Env.panicAtCronNew .nil).trace ∧
      (main Env.panicAtCronNew .nil).trace.count .kill = 1 ∧
      (main Env.panicAtCronNew .nil).res = .exit 1 ∧
      (main Env.panicAtCronNew .nil).handle = .live) :=
  ⟨(main_fatal_exit_skips_deferred_stop Env.neverReady .nil).2.1 rfl (by decide) (by decide)
    (by decide),
   (main_fatal_exit_skips_deferred_stop Env.panicAtCronNew .nil).2.2 (by decide)⟩

end ResumeCron
